import Mathlib

/-!
Shallow embedding of the multi-backend RAG dispatch layer of the repository
(src/backend/inference.py and src/backend/main.py).

External collaborators (the Together chat service, the OpenAI embedding model,
the FAISS index, the docstore, the Qdrant client, the Pinecone index, the
Weaviate vector store, the Chroma retriever chain) are modelled as oracle
values: function-valued structures whose calls may fail, mirroring that any
network call can raise.  Python exceptions are modelled with Except String;
the constructor call OpenAIEmbeddings() inside the dispatcher is an external
effect, rendered as explicit state: the dispatcher returns, next to its
result, a Bool recording whether that constructor ran during the call.
-/

namespace PlaywrightRAG

/-- A conversation turn: the source stores dicts with string fields
role and content. -/
structure Turn where
  role : String
  content : String
  deriving DecidableEq, Repr

/-- Python str.capitalize: first character uppercased, the rest lowercased. -/
def pyCapitalize (s : String) : String :=
  match s.data with
  | [] => ""
  | c :: cs => String.mk (c.toUpper :: cs.map Char.toLower)

/-- The history serialization repeated verbatim in all five adapters
(inference.py lines 30-32, 60-62, 93-95, 145-147, 179-181):
newline-joined lines of the form Role: content with the role capitalized. -/
def formatHistory (chat_history : List Turn) : String :=
  String.intercalate "\n"
    (chat_history.map (fun msg => pyCapitalize msg.role ++ ": " ++ msg.content))

/-- The f-string building question_with_history, repeated in the Chroma,
Qdrant and Weaviate adapters (inference.py lines 33, 96, 182). -/
def questionWithHistory (history_context question : String) : String :=
  "Chat History:\n" ++ history_context ++ "\n\nNew Question:\n" ++ question

/-- Embedding vectors are opaque to this layer; only their identity matters. -/
abbrev Vec := List Int

/-- The hosted chat service: ChatTogether(together_api_key, model).predict
and the chain invocations ending in the chat model are modelled as one
oracle taking the model name and the assembled prompt. -/
abbrev ChatService := String → String → Except String String

/-- The embedding model object (OpenAIEmbeddings); embed_query may fail. -/
structure EmbeddingModel where
  embed_query : String → Except String Vec

/-- The Chroma retriever chain stage: the source pipes the retriever into the
prompt template; the retrieval step producing the context text for a query is
modelled as one oracle. -/
abbrev Retriever := String → Except String String

/-- The FAISS index: search takes a batch of query vectors and k and returns
the pair (D, I) of distance rows and id rows; distances are unused by the
source and kept opaque as integer rows. -/
structure FaissIndex where
  search : List Vec → Nat → Except String (List (List Int) × List (List Int))

/-- A stored document; the source reads only page_content. -/
structure Document where
  page_content : String
  deriving DecidableEq, Repr

/-- The docstore: search maps a numeric id to a document or fails. -/
structure Docstore where
  search : Int → Except String Document

/-- A Qdrant search result; the source reads result.payload, a dict, at key
page_content, modelled as that one text field. -/
structure ScoredPoint where
  payload_page_content : String
  deriving DecidableEq, Repr

/-- A Pinecone match; the source reads result at metadata then text,
modelled as that one text field. -/
structure PineconeMatch where
  metadata_text : String
  deriving DecidableEq, Repr

/-- The Pinecone index: query takes the vector, top_k and include_metadata. -/
structure PineconeIndex where
  query : Vec → Nat → Bool → Except String (List PineconeMatch)

/-- The session handle vs.  The dispatcher (inference.py lines 213 and 217)
passes this same duck-typed object both to the Qdrant adapter, which calls
its search method with a collection name, a query vector and a limit, and to
the Weaviate adapter, which calls as_retriever; the retriever pull of the
Weaviate rag chain, producing the context text for a query, is modelled as
the as_retriever oracle. -/
structure VSHandle where
  search : String → Vec → Nat → Except String (List ScoredPoint)
  as_retriever : String → Except String String

/-- Prompt of the Chroma adapter (inference.py lines 35-43); the chain feeds
the retriever output into the context slot and the chain input, which is
question_with_history, into the question slot. -/
def chromaPrompt (context question : String) : String :=
  "You are an expert financial advisor. Use the context and chat history to answer accurately.\n\n"
  ++ "Context: " ++ context ++ "\n\n" ++ question
  ++ "\n\nAnswer (be specific and avoid hallucinations):"

/-- inference_chroma (inference.py lines 24-48). -/
def inference_chroma (together : ChatService) (chat_model question : String)
    (retriever : Retriever) (chat_history : List Turn) : Except String String := do
  let history_context := formatHistory chat_history
  let question_with_history := questionWithHistory history_context question
  let context ← retriever question_with_history
  together chat_model (chromaPrompt context question_with_history)

/-- Prompt template of the FAISS adapter (inference.py lines 71-80). -/
def faissPrompt (history context question : String) : String :=
  "You are an expert financial advisor. Use the context and chat history to answer questions accurately.\n"
  ++ "Chat History:\n" ++ history ++ "\n\nContext:\n" ++ context
  ++ "\n\nQuestion:\n" ++ question ++ "\n\nAnswer:"

/-- inference_faiss (inference.py lines 51-86): embed the question, search
the index with k = 1, take I at row 0 column 0 as the doc id (an out of range
access raises, as in Python), fetch the document and use its page_content as
the context. -/
def inference_faiss (together : ChatService) (chat_model question : String)
    (embedding_model_global : Option EmbeddingModel) (index : FaissIndex)
    (docstore : Docstore) (chat_history : List Turn) : Except String String :=
  match embedding_model_global with
  | none => Except.error "Embedding model is not initialized."
  | some emb => do
    let history_context := formatHistory chat_history
    let query_embedding ← emb.embed_query question
    let DI ← index.search [query_embedding] 1
    let doc_id ← match DI.2.head? >>= List.head? with
      | some i => pure i
      | none => Except.error "IndexError"
    let document ← docstore.search doc_id
    let context := document.page_content
    together chat_model (faissPrompt history_context context question)

/-- Prompt of the Qdrant adapter (inference.py lines 109-118), with the
triple-quoted indentation of the source reproduced. -/
def qdrantPrompt (context question_with_history : String) : String :=
  "\n    You are a helpful assistant. Use the retrieved documents to answer:\n    \n    Context:\n    "
  ++ context ++ "\n\n    " ++ question_with_history ++ "\n\n    Answer:\n    "

/-- inference_qdrant (inference.py lines 89-127): embed question_with_history,
search collection text_vectors with limit 2, newline-join the payload
page_content fields as the context. -/
def inference_qdrant (together : ChatService) (chat_model question : String)
    (embedding_model_global : Option EmbeddingModel) (client : VSHandle)
    (chat_history : List Turn) : Except String String :=
  match embedding_model_global with
  | none => Except.error "Embedding model is not initialized."
  | some emb => do
    let history_context := formatHistory chat_history
    let question_with_history := questionWithHistory history_context question
    let query_embedding ← emb.embed_query question_with_history
    let search_results ← client.search "text_vectors" query_embedding 2
    let contexts := search_results.map (fun result => result.payload_page_content)
    let context := String.intercalate "\n" contexts
    together chat_model (qdrantPrompt context question_with_history)

/-- Prompt of the Pinecone adapter (inference.py lines 149-161), with the
triple-quoted indentation of the source reproduced. -/
def pineconePrompt (formatted_history context question : String) : String :=
  "\n    You are a helpful assistant. Use the retrieved documents and chat history to answer:\n    \n    Chat History:\n    "
  ++ formatted_history ++ "\n\n    Context:\n    " ++ context
  ++ "\n\n    Question: " ++ question ++ "\n    \n    Answer:\n    "

/-- inference_pinecone (inference.py lines 130-170): embed the question (the
question alone, line 134), query with top_k 2 and include_metadata, then
newline-join the metadata text fields as the context. -/
def inference_pinecone (together : ChatService) (chat_model question : String)
    (embedding_model_global : Option EmbeddingModel) (pinecone_index : PineconeIndex)
    (chat_history : List Turn) : Except String String :=
  match embedding_model_global with
  | none => Except.error "Embedding model is not initialized."
  | some emb => do
    let query_embedding ← emb.embed_query question
    let search_results ← pinecone_index.query query_embedding 2 true
    let contexts := search_results.map (fun result => result.metadata_text)
    let context := String.intercalate "\n" contexts
    let formatted_history := formatHistory chat_history
    together chat_model (pineconePrompt formatted_history context question)

/-- Prompt of the Weaviate adapter (inference.py lines 184-193). -/
def weaviatePrompt (context question : String) : String :=
  "\n    You are an expert financial advisor. Use the context and chat history to answer accurately:\n\n    Context:\n    "
  ++ context ++ "\n\n    " ++ question ++ "\n\n    Answer:\n    "

/-- inference_weaviate (inference.py lines 173-201): the rag chain pulls
context for question_with_history through the vector store retriever. -/
def inference_weaviate (together : ChatService) (chat_model question : String)
    (vs : VSHandle) (chat_history : List Turn) : Except String String := do
  let history_context := formatHistory chat_history
  let question_with_history := questionWithHistory history_context question
  let context ← vs.as_retriever question_with_history
  together chat_model (weaviatePrompt context question_with_history)

/-- The dispatcher inference (inference.py lines 204-219).  When the passed
embedding model reference is None it constructs OpenAIEmbeddings (rebinding
only the local variable); the returned Bool records whether that constructor
ran.  An unrecognized backend name prints Invalid Choice and returns None,
modelled as Except.ok none. -/
def inference (together : ChatService) (openai_embeddings : EmbeddingModel)
    (vectordb_name chat_model question : String) (retriever : Retriever)
    (embedding_model_global : Option EmbeddingModel) (index : FaissIndex)
    (docstore : Docstore) (pinecone_index : PineconeIndex) (vs : VSHandle)
    (chat_history : List Turn) : Except String (Option String) × Bool :=
  let constructed := embedding_model_global.isNone
  let embedding_model_global := some (embedding_model_global.getD openai_embeddings)
  if vectordb_name = "Chroma" then
    ((inference_chroma together chat_model question retriever chat_history).map Option.some,
     constructed)
  else if vectordb_name = "FAISS" then
    ((inference_faiss together chat_model question embedding_model_global index docstore chat_history).map Option.some,
     constructed)
  else if vectordb_name = "Qdrant" then
    ((inference_qdrant together chat_model question embedding_model_global vs chat_history).map Option.some,
     constructed)
  else if vectordb_name = "Pinecone" then
    ((inference_pinecone together chat_model question embedding_model_global pinecone_index chat_history).map Option.some,
     constructed)
  else if vectordb_name = "Weaviate" then
    ((inference_weaviate together chat_model question vs chat_history).map Option.some,
     constructed)
  else
    (Except.ok none, constructed)

/-- The session_state dict of main.py (lines 23-34). -/
structure SessionState where
  retriever : Retriever
  preprocessing_done : Bool
  index : FaissIndex
  docstore : Docstore
  embedding_model_global : Option EmbeddingModel
  pinecone_index : PineconeIndex
  vs : VSHandle
  selected_vectordb : Option String
  selected_chat_model : Option String
  messages : List Turn

/-- Python falsiness of an optional string: None and the empty string are
falsy, as tested by the guards of chat_with_bot. -/
def pyFalsy : Option String → Bool
  | none => true
  | some s => s == ""

/-- An HTTPException: status code and detail text. -/
abbrev HTTPError := Nat × String

/-- chat_with_bot (main.py lines 114-149): guard on preprocessing and on the
selections, append the user turn, run inference, append the assistant turn on
success, wrap an inference exception as a 500 error.  A None response from
inference (invalid backend) is stored as its string rendering, matching how
the source later interpolates the content into prompts.  The extra Bool
propagates the constructed-embedding flag of the dispatcher. -/
def chat_with_bot (together : ChatService) (openai_embeddings : EmbeddingModel)
    (s : SessionState) (prompt : String) :
    Except HTTPError (Option String) × SessionState × Bool :=
  if ¬ s.preprocessing_done then
    (Except.error (400, "❌ Preprocessing must be completed before inferencing."), s, false)
  else if pyFalsy s.selected_vectordb || pyFalsy s.selected_chat_model then
    (Except.error (400, "❌ Please select both a vector database and a chat model before chatting."), s, false)
  else
    let messages1 := s.messages ++ [{ role := "user", content := prompt }]
    let s1 := { s with messages := messages1 }
    match inference together openai_embeddings (s.selected_vectordb.getD "")
        (s.selected_chat_model.getD "") prompt s.retriever s.embedding_model_global
        s.index s.docstore s.pinecone_index s.vs messages1 with
    | (Except.error e, constructed) =>
        (Except.error (500, "Inference Error: " ++ e), s1, constructed)
    | (Except.ok response, constructed) =>
        let content := (response.getD "None")
        (Except.ok response,
         { s1 with messages := messages1 ++ [{ role := "assistant", content := content }] },
         constructed)

/-- reset_chat (main.py lines 152-157): empty the messages list, touch
nothing else, report the reset. -/
def reset_chat (s : SessionState) : SessionState × String :=
  ({ s with messages := [] }, "Chat history reset.")

/-- The ready-to-chat condition, read off the guards of chat_with_bot:
preprocessing done and both selections truthy. -/
def readyToChat (s : SessionState) : Prop :=
  s.preprocessing_done = true
    ∧ pyFalsy s.selected_vectordb = false
    ∧ pyFalsy s.selected_chat_model = false

/-! Concrete stub collaborators used to evaluate the embedding on closed
inputs. -/

/-- A chat service echoing the prompt it receives. -/
def echoChat : ChatService := fun _model prompt => Except.ok prompt

/-- An embedding model mapping a text to the vector holding its length,
so the embedded text is observable through the vector. -/
def lenEmbed : EmbeddingModel := ⟨fun s => Except.ok [Int.ofNat s.length]⟩

/-- A constant embedding model. -/
def constEmbed : EmbeddingModel := ⟨fun _ => Except.ok [0]⟩

/-- An embedding model whose every call fails. -/
def failEmbed : EmbeddingModel := ⟨fun _ => Except.error "boom"⟩

/-- A FAISS index returning id 7 (the scenario of the spec). -/
def idx7 : FaissIndex := ⟨fun _ _ => Except.ok ([[0]], [[7]])⟩

/-- A docstore holding exactly document 7. -/
def doc7store : Docstore :=
  ⟨fun i => if i = 7 then Except.ok ⟨"Compound interest is interest on interest."⟩
            else Except.error "id not found"⟩

/-- A Pinecone index echoing the received query vector into the match text,
so the embedded query is observable in the produced context. -/
def echoPinecone : PineconeIndex :=
  ⟨fun v _k _m => Except.ok [⟨toString v⟩]⟩

/-- A combined vs handle echoing vector and limit on search and tagging the
query on retrieval. -/
def stubVS : VSHandle :=
  ⟨fun _coll v k => Except.ok [⟨toString v ++ "/" ++ toString k⟩],
   fun q => Except.ok ("ctx:" ++ q)⟩

/-- A Chroma retriever stub tagging the query. -/
def stubRetriever : Retriever := fun q => Except.ok ("r:" ++ q)

/-- A FAISS index agreeing with idx7 at k = 1 only. -/
def idx7elsewhere : FaissIndex :=
  ⟨fun vb k => if k = 1 then idx7.search vb 1 else Except.error "other"⟩

/-- A vs handle agreeing with stubVS at limit 2 only. -/
def stubVSelsewhere : VSHandle :=
  ⟨fun c v k => if k = 2 then stubVS.search c v 2 else Except.error "other",
   fun _ => Except.error "other"⟩

/-- A Pinecone index agreeing with echoPinecone at top_k 2 only. -/
def echoPineconeElsewhere : PineconeIndex :=
  ⟨fun v k m => if k = 2 then echoPinecone.query v 2 m else Except.error "other"⟩

/-- A session that is ready to chat against the FAISS backend, with no
embedding model stored. -/
def faissSession : SessionState where
  retriever := stubRetriever
  preprocessing_done := true
  index := idx7
  docstore := doc7store
  embedding_model_global := none
  pinecone_index := echoPinecone
  vs := stubVS
  selected_vectordb := some "FAISS"
  selected_chat_model := some "m"
  messages := []

/-- The FAISS-ready session with an embedding model whose calls fail, used to
drive the inference call into an exception. -/
def failSession : SessionState :=
  { faissSession with embedding_model_global := some failEmbed }

/-- Like lenEmbed except at the bare text q, where it answers differently. -/
def lenEmbedQ : EmbeddingModel :=
  ⟨fun s => if s = "q" then Except.ok [99] else Except.ok [Int.ofNat s.length]⟩

/-- Like lenEmbed at the bare text q and different everywhere else. -/
def lenEmbedNotQ : EmbeddingModel :=
  ⟨fun s => if s = "q" then Except.ok [Int.ofNat s.length] else Except.ok [77]⟩

/-- Refinement comparison definition following the spec sentence on the
managed-search adapters word for word: embed the (question + history) text as
the query vector.  It differs from inference_pinecone, translated from the
source, exactly in the argument given to embed_query. -/
def inference_pinecone_spec (together : ChatService) (chat_model question : String)
    (embedding_model_global : Option EmbeddingModel) (pinecone_index : PineconeIndex)
    (chat_history : List Turn) : Except String String :=
  match embedding_model_global with
  | none => Except.error "Embedding model is not initialized."
  | some emb => do
    let formatted_history := formatHistory chat_history
    let question_with_history := questionWithHistory formatted_history question
    let query_embedding ← emb.embed_query question_with_history
    let search_results ← pinecone_index.query query_embedding 2 true
    let contexts := search_results.map (fun result => result.metadata_text)
    let context := String.intercalate "\n" contexts
    together chat_model (pineconePrompt formatted_history context question)

/-- Reduction of a bind whose first argument already succeeded; definitional,
stated as a rewrite rule for the proofs below. -/
theorem bindOk {ε α β : Type} (a : α) (f : α → Except ε β) :
    (Except.ok a : Except ε α) >>= f = f a := rfl

/-- C8: each adapter that needs embeddings (FAISS, Qdrant, Pinecone), given a
None embedding model reference, fails with the message that the embedding
model is not initialized; the result is this error for every index, docstore,
client and history, so no embedding or search call is issued. -/
theorem C8_fail_fast_on_absent_embedding_model
    (together : ChatService) (cm q : String) (index : FaissIndex)
    (docstore : Docstore) (pidx : PineconeIndex) (vsh : VSHandle)
    (hist : List Turn) :
    inference_faiss together cm q none index docstore hist
        = Except.error "Embedding model is not initialized."
      ∧ inference_qdrant together cm q none vsh hist
        = Except.error "Embedding model is not initialized."
      ∧ inference_pinecone together cm q none pidx hist
        = Except.error "Embedding model is not initialized." :=
  ⟨rfl, rfl, rfl⟩

/-- C9: reset empties the turn history and changes nothing else; every other
session field is untouched and readiness to chat is preserved. -/
theorem C9_reset_clears_only_messages (s : SessionState) :
    (reset_chat s).1.messages = []
      ∧ (reset_chat s).1.retriever = s.retriever
      ∧ (reset_chat s).1.preprocessing_done = s.preprocessing_done
      ∧ (reset_chat s).1.index = s.index
      ∧ (reset_chat s).1.docstore = s.docstore
      ∧ (reset_chat s).1.embedding_model_global = s.embedding_model_global
      ∧ (reset_chat s).1.pinecone_index = s.pinecone_index
      ∧ (reset_chat s).1.vs = s.vs
      ∧ (reset_chat s).1.selected_vectordb = s.selected_vectordb
      ∧ (reset_chat s).1.selected_chat_model = s.selected_chat_model
      ∧ (readyToChat (reset_chat s).1 ↔ readyToChat s) :=
  ⟨rfl, rfl, rfl, rfl, rfl, rfl, rfl, rfl, rfl, rfl, Iff.rfl⟩

/-- C1: at the backend name Postgres, outside the supported set, the
dispatcher returns ok none — the silent None of the source — rather than a
reported failure, whatever the collaborators, inputs and history are. -/
theorem C1_unsupported_backend_silently_returns_none
    (together : ChatService) (openai : EmbeddingModel) (cm q : String)
    (r : Retriever) (emb : Option EmbeddingModel) (index : FaissIndex)
    (ds : Docstore) (pidx : PineconeIndex) (vsh : VSHandle) (hist : List Turn) :
    inference together openai "Postgres" cm q r emb index ds pidx vsh hist
      = (Except.ok none, emb.isNone) := rfl

/-- C5: the FAISS adapter embeds the question, searches the index with k = 1,
looks the returned id up in the docstore and uses exactly that document text
as the context slot of its prompt. -/
theorem C5_faiss_context_is_looked_up_document
    (together : ChatService) (cm question : String) (emb : EmbeddingModel)
    (index : FaissIndex) (docstore : Docstore) (hist : List Turn)
    (v : Vec) (D I : List (List Int)) (i : Int) (doc : Document)
    (hEmb : emb.embed_query question = Except.ok v)
    (hSearch : index.search [v] 1 = Except.ok (D, I))
    (hId : (I.head? >>= List.head?) = some i)
    (hDoc : docstore.search i = Except.ok doc) :
    inference_faiss together cm question (some emb) index docstore hist
      = together cm (faissPrompt (formatHistory hist) doc.page_content question) := by
  simp only [inference_faiss, hEmb, bindOk]
  rw [hSearch, bindOk]
  simp only [hId, pure_bind, hDoc, bindOk]

/-- C5 witness: the scenario of the spec — a fake index returning id 7 and a
docstore holding document 7 — at which the FAISS adapter uses exactly the
text of document 7 as the context. -/
theorem C5_faiss_context_witness :
    constEmbed.embed_query "What is compound interest?" = Except.ok [0]
    ∧ idx7.search [[0]] 1 = Except.ok ([[0]], [[7]])
    ∧ (([[7]] : List (List Int)).head? >>= List.head?) = some 7
    ∧ doc7store.search 7 = Except.ok ⟨"Compound interest is interest on interest."⟩
    ∧ inference_faiss echoChat "m" "What is compound interest?" (some constEmbed) idx7 doc7store []
      = echoChat "m" (faissPrompt (formatHistory [])
          "Compound interest is interest on interest." "What is compound interest?") :=
  ⟨rfl, rfl, rfl, rfl,
   C5_faiss_context_is_looked_up_document echoChat "m" "What is compound interest?"
     constEmbed idx7 doc7store [] [0] [[0]] [[7]] 7
     ⟨"Compound interest is interest on interest."⟩ rfl rfl rfl rfl⟩

/-- C6: history is rendered as the newline-joined capitalized Role: content
lines in turn order — a pure function of the turn sequence giving exactly
User: hi then Assistant: hello on the example — and every one of the five
adapters reads the history only through this serialization, so the rendering
is identical across backends. -/
theorem C6_history_serialization :
    formatHistory [⟨"user", "hi"⟩, ⟨"assistant", "hello"⟩] = "User: hi\nAssistant: hello"
    ∧ (∀ msgs : List Turn, formatHistory msgs
        = String.intercalate "\n"
            (msgs.map (fun m => pyCapitalize m.role ++ ": " ++ m.content)))
    ∧ (∀ (together : ChatService) (cm q : String) (r : Retriever)
        (emb : Option EmbeddingModel) (index : FaissIndex) (ds : Docstore)
        (pidx : PineconeIndex) (vsh : VSHandle) (h1 h2 : List Turn),
        formatHistory h1 = formatHistory h2 →
          inference_chroma together cm q r h1 = inference_chroma together cm q r h2
          ∧ inference_faiss together cm q emb index ds h1
              = inference_faiss together cm q emb index ds h2
          ∧ inference_qdrant together cm q emb vsh h1
              = inference_qdrant together cm q emb vsh h2
          ∧ inference_pinecone together cm q emb pidx h1
              = inference_pinecone together cm q emb pidx h2
          ∧ inference_weaviate together cm q vsh h1
              = inference_weaviate together cm q vsh h2) := by
  refine ⟨rfl, fun msgs => rfl, ?_⟩
  intro together cm q r emb index ds pidx vsh h1 h2 hEq
  cases emb with
  | none =>
      exact ⟨by simp [inference_chroma, hEq], rfl, rfl, rfl,
             by simp [inference_weaviate, hEq]⟩
  | some e =>
      refine ⟨?_, ?_, ?_, ?_, ?_⟩ <;>
        simp [inference_chroma, inference_faiss, inference_qdrant,
              inference_pinecone, inference_weaviate, hEq]

/-- C6 witness: two distinct turn lists with the same serialization are
indistinguishable to an adapter, and the example list renders as stated. -/
theorem C6_history_serialization_witness :
    formatHistory [⟨"user", "hi"⟩, ⟨"assistant", "hello"⟩]
      = formatHistory [⟨"user", "hi\nAssistant: hello"⟩]
    ∧ inference_chroma echoChat "m" "q" stubRetriever [⟨"user", "hi"⟩, ⟨"assistant", "hello"⟩]
      = inference_chroma echoChat "m" "q" stubRetriever [⟨"user", "hi\nAssistant: hello"⟩] :=
  ⟨rfl,
   (C6_history_serialization.2.2 echoChat "m" "q" stubRetriever (some constEmbed)
      idx7 doc7store echoPinecone stubVS
      [⟨"user", "hi"⟩, ⟨"assistant", "hello"⟩] [⟨"user", "hi\nAssistant: hello"⟩] rfl).1⟩

/-- C7: the retrieval count is fixed per adapter and passed unchanged: the
FAISS adapter consults its index only at k = 1, the Qdrant adapter its client
only at limit 2 and the Pinecone adapter its index only at top_k 2, so two
backends agreeing on that one slice are indistinguishable to the adapter. -/
theorem C7_fixed_k_passed_unchanged
    (together : ChatService) (cm q : String) (emb : EmbeddingModel)
    (index index' : FaissIndex) (ds : Docstore) (vsh vsh' : VSHandle)
    (pidx pidx' : PineconeIndex) (hist : List Turn) :
    ((∀ vb, index.search vb 1 = index'.search vb 1) →
        inference_faiss together cm q (some emb) index ds hist
          = inference_faiss together cm q (some emb) index' ds hist)
    ∧ ((∀ c v, vsh.search c v 2 = vsh'.search c v 2) →
        inference_qdrant together cm q (some emb) vsh hist
          = inference_qdrant together cm q (some emb) vsh' hist)
    ∧ ((∀ v m, pidx.query v 2 m = pidx'.query v 2 m) →
        inference_pinecone together cm q (some emb) pidx hist
          = inference_pinecone together cm q (some emb) pidx' hist) := by
  refine ⟨fun h => ?_, fun h => ?_, fun h => ?_⟩ <;>
    simp [inference_faiss, inference_qdrant, inference_pinecone, h]

/-- C7 witness: concrete backends that agree only on the configured k are
interchangeable in each adapter. -/
theorem C7_fixed_k_witness :
    inference_faiss echoChat "m" "q" (some constEmbed) idx7 doc7store []
      = inference_faiss echoChat "m" "q" (some constEmbed) idx7elsewhere doc7store []
    ∧ inference_qdrant echoChat "m" "q" (some constEmbed) stubVS []
      = inference_qdrant echoChat "m" "q" (some constEmbed) stubVSelsewhere []
    ∧ inference_pinecone echoChat "m" "q" (some constEmbed) echoPinecone []
      = inference_pinecone echoChat "m" "q" (some constEmbed) echoPineconeElsewhere [] :=
  ⟨(C7_fixed_k_passed_unchanged echoChat "m" "q" constEmbed idx7 idx7elsewhere doc7store
      stubVS stubVSelsewhere echoPinecone echoPineconeElsewhere []).1 (fun _ => rfl),
   (C7_fixed_k_passed_unchanged echoChat "m" "q" constEmbed idx7 idx7elsewhere doc7store
      stubVS stubVSelsewhere echoPinecone echoPineconeElsewhere []).2.1 (fun _ _ => rfl),
   (C7_fixed_k_passed_unchanged echoChat "m" "q" constEmbed idx7 idx7elsewhere doc7store
      stubVS stubVSelsewhere echoPinecone echoPineconeElsewhere []).2.2 (fun _ _ => rfl)⟩

set_option maxRecDepth 40000 in
/-- C2 counterexample: with an embedding probe exposing the embedded text
through its length and a Pinecone stub echoing the received query vector into
the context, the Pinecone adapter differs from the spec variant embedding the
question plus history text — it embeds the question alone. -/
theorem C2_counterexample_pinecone_embeds_question_alone :
    (inference_pinecone echoChat "m" "q" (some lenEmbed) echoPinecone
        [⟨"user", "hi"⟩]).toOption
      ≠ (inference_pinecone_spec echoChat "m" "q" (some lenEmbed) echoPinecone
        [⟨"user", "hi"⟩]).toOption := by
  decide

/-- C2 amended: only the Qdrant adapter embeds the question plus history text
as its query vector; the Pinecone adapter embeds the question alone.  Each
adapter consults the embedding model only at that one text, so two models
agreeing there are indistinguishable to it. -/
theorem C2_amended_qdrant_embeds_history_pinecone_question_alone
    (together : ChatService) (cm question : String) (e e' : EmbeddingModel)
    (vsh : VSHandle) (pidx : PineconeIndex) (hist : List Turn) :
    (e.embed_query (questionWithHistory (formatHistory hist) question)
        = e'.embed_query (questionWithHistory (formatHistory hist) question) →
      inference_qdrant together cm question (some e) vsh hist
        = inference_qdrant together cm question (some e') vsh hist)
    ∧ (e.embed_query question = e'.embed_query question →
      inference_pinecone together cm question (some e) pidx hist
        = inference_pinecone together cm question (some e') pidx hist) := by
  constructor
  · intro h; simp [inference_qdrant, h]
  · intro h; simp [inference_pinecone, h]

/-- C2 amended witness: models agreeing on the question-plus-history text are
interchangeable in the Qdrant adapter, models agreeing on the bare question
are interchangeable in the Pinecone adapter, at concrete inputs. -/
theorem C2_amended_embedding_input_witness :
    lenEmbed.embed_query (questionWithHistory (formatHistory [⟨"user", "hi"⟩]) "q")
      = lenEmbedQ.embed_query (questionWithHistory (formatHistory [⟨"user", "hi"⟩]) "q")
    ∧ inference_qdrant echoChat "m" "q" (some lenEmbed) stubVS [⟨"user", "hi"⟩]
      = inference_qdrant echoChat "m" "q" (some lenEmbedQ) stubVS [⟨"user", "hi"⟩]
    ∧ lenEmbed.embed_query "q" = lenEmbedNotQ.embed_query "q"
    ∧ inference_pinecone echoChat "m" "q" (some lenEmbed) echoPinecone [⟨"user", "hi"⟩]
      = inference_pinecone echoChat "m" "q" (some lenEmbedNotQ) echoPinecone [⟨"user", "hi"⟩] :=
  ⟨rfl,
   (C2_amended_qdrant_embeds_history_pinecone_question_alone echoChat "m" "q"
      lenEmbed lenEmbedQ stubVS echoPinecone [⟨"user", "hi"⟩]).1 rfl,
   rfl,
   (C2_amended_qdrant_embeds_history_pinecone_question_alone echoChat "m" "q"
      lenEmbed lenEmbedNotQ stubVS echoPinecone [⟨"user", "hi"⟩]).2 rfl⟩

/-- C3 counterexample: in a session whose stored embedding reference is None,
the first chat call constructs the embedding model, the session field is
still None afterwards, and the second chat call constructs again — the
construction is not cached for the session lifetime. -/
theorem C3_counterexample_second_call_constructs_again :
    (chat_with_bot echoChat constEmbed faissSession "q1").2.2 = true
    ∧ (chat_with_bot echoChat constEmbed faissSession "q1").2.1.embedding_model_global
        = none
    ∧ (chat_with_bot echoChat constEmbed
        (chat_with_bot echoChat constEmbed faissSession "q1").2.1 "q2").2.2 = true :=
  ⟨rfl, rfl, rfl⟩

/-- C3 amended: when the embedding reference passed to the dispatcher is
absent, a model is constructed before dispatching — the call behaves exactly
as if the freshly constructed model had been passed, and reports the
construction — but the model is not cached: chat_with_bot never updates the
stored session reference, so an absent reference stays absent and every later
call constructs anew. -/
theorem C3_amended_construct_on_each_call_never_cached :
    (∀ (together : ChatService) (openai : EmbeddingModel) (name cm q : String)
        (r : Retriever) (index : FaissIndex) (ds : Docstore) (pidx : PineconeIndex)
        (vsh : VSHandle) (hist : List Turn),
        inference together openai name cm q r none index ds pidx vsh hist
          = ((inference together openai name cm q r (some openai) index ds pidx vsh hist).1,
             true))
    ∧ (∀ (together : ChatService) (openai : EmbeddingModel) (s : SessionState) (p : String),
        ((chat_with_bot together openai s p).2.1).embedding_model_global
          = s.embedding_model_global) := by
  constructor
  · intro together openai name cm q r index ds pidx vsh hist
    simp only [inference]
    split_ifs <;> rfl
  · intro together openai s p
    simp only [chat_with_bot]
    split
    · rfl
    · split
      · rfl
      · split <;> rfl

/-- C4 counterexample: with a failing embedding model the chat call reports a
500 Inference Error, yet the failed call has changed the session record: the
user turn appended before inference stays in the turn history. -/
theorem C4_counterexample_failed_chat_keeps_user_turn :
    (chat_with_bot echoChat constEmbed failSession "p").1
        = Except.error (500, "Inference Error: boom")
    ∧ failSession.messages = []
    ∧ (chat_with_bot echoChat constEmbed failSession "p").2.1.messages
        = [⟨"user", "p"⟩] :=
  ⟨rfl, rfl, rfl⟩

/-- C4 amended: every failing chat call surfaces as a reported error with
descriptive text — one of the two 400 guard messages, with the session
unchanged, or a 500 error wrapping the inference message as Inference Error,
with the session changed exactly by the user turn appended before inference
(the turn history is not rolled back on failure). -/
theorem C4_amended_errors_reported_user_turn_retained
    (together : ChatService) (openai : EmbeddingModel) (s : SessionState) (p : String) :
    match chat_with_bot together openai s p with
    | (Except.error e, s2, _) =>
        (s2 = s
          ∧ (e = (400, "❌ Preprocessing must be completed before inferencing.")
            ∨ e = (400, "❌ Please select both a vector database and a chat model before chatting.")))
        ∨ (e.1 = 500 ∧ (∃ e0, e.2 = "Inference Error: " ++ e0)
            ∧ s2 = { s with messages := s.messages ++ [⟨"user", p⟩] })
    | (Except.ok _, _, _) => True := by
  by_cases h1 : s.preprocessing_done = true
  · by_cases h2 : (pyFalsy s.selected_vectordb || pyFalsy s.selected_chat_model) = true
    · simp [chat_with_bot, h1, h2]
    · rcases hI : inference together openai (s.selected_vectordb.getD "")
          (s.selected_chat_model.getD "") p s.retriever s.embedding_model_global
          s.index s.docstore s.pinecone_index s.vs
          (s.messages ++ [⟨"user", p⟩]) with ⟨res, c⟩
      cases res with
      | error e => simp [chat_with_bot, h1, h2, hI]
      | ok r => simp [chat_with_bot, h1, h2, hI]
  · simp [chat_with_bot, h1]

/-- C10: within one dispatcher call the Qdrant and the Weaviate branches read
the same handle argument vs: both are invariant under every change to the
other four handles, and each equals its adapter applied to that shared vs —
the parameter list offers no separate Qdrant handle. -/
theorem C10_qdrant_and_weaviate_share_the_vs_handle
    (together : ChatService) (openai : EmbeddingModel) (cm q : String)
    (r r2 : Retriever) (emb : Option EmbeddingModel) (index index2 : FaissIndex)
    (ds ds2 : Docstore) (pidx pidx2 : PineconeIndex) (vsh : VSHandle)
    (hist : List Turn) :
    (inference together openai "Qdrant" cm q r emb index ds pidx vsh hist
        = inference together openai "Qdrant" cm q r2 emb index2 ds2 pidx2 vsh hist)
    ∧ (inference together openai "Weaviate" cm q r emb index ds pidx vsh hist
        = inference together openai "Weaviate" cm q r2 emb index2 ds2 pidx2 vsh hist)
    ∧ ((inference together openai "Qdrant" cm q r emb index ds pidx vsh hist).1
        = (inference_qdrant together cm q (some (emb.getD openai)) vsh hist).map Option.some)
    ∧ ((inference together openai "Weaviate" cm q r emb index ds pidx vsh hist).1
        = (inference_weaviate together cm q vsh hist).map Option.some) :=
  ⟨rfl, rfl, rfl, rfl⟩

end PlaywrightRAG
